import Mathlib

/-!
Shallow embedding of src/newspaper_with_cookies/network.py.

Python dictionaries of string attributes are modelled as association
lists; Python values that may be either str or bytes are modelled by the
sum type PyVal; a raised exception is modelled by the error side of an
Except. The HTTP transport (the requests library), the filesystem and
the text decoder are external collaborators and enter as explicit
parameters (World, FS, Transport). In-place mutation of cookie
dictionaries (del cookie[attr] in get_request_kwargs) is modelled by
returning, next to the assembled keyword arguments, the list of cookie
records as every alias of that list observes them after the call.
-/

/-- Values that the Python code can return: a str or a bytes object. -/
inductive PyVal where
  | pstr (s : String)
  | pbytes (bs : List Nat)
deriving Repr, DecidableEq

/-- Cookie record: a Python dict from attribute name to value. -/
abbrev Cookie := List (String × String)

/-- Module constant FAIL_ENCODING of network.py. -/
def FAIL_ENCODING : String := "ISO-8859-1"

/-- Module constant FILTERED_ATTR of network.py. -/
def FILTERED_ATTR : List String :=
  ["hostOnly", "session", "storeId", "id", "sameSite", "httpOnly", "expirationDate"]

/-- Attribute stripping performed inside get_request_kwargs: for each
attr of FILTERED_ATTR that is present, del cookie[attr]. -/
def stripCookie (c : Cookie) : Cookie :=
  c.filter (fun p => !(FILTERED_ATTR.contains p.1))

/-- Configuration object as read by network.py (fields from .configuration). -/
structure Configuration where
  browser_user_agent : String
  request_timeout : Nat
  proxies : List (String × String)
  headers : List (String × String)
  cookies : List Cookie
  cookies_file : String
  http_success_only : Bool
  ignored_content_types_defaults : List (String × String)
  number_threads : Nat
  thread_timeout_seconds : Nat
deriving Repr, DecidableEq

/-- Raw HTTP response as network.py reads it: the content-type header
(absent when the server sent none), the transport-detected encoding
(response.encoding, which requests may leave unset), the status code and
the raw body bytes. -/
structure Response where
  contentTypeHeader : Option String
  encoding : Option String
  status : Nat
  content : List Nat
deriving Repr, DecidableEq

/-- External text machinery of the requests library: decode models
response.text for a given value of response.encoding, and
getEncodingsFromContent models requests.utils.get_encodings_from_content
(the scan of a body for embedded charset declarations). -/
structure Transport where
  decode : Option String → List Nat → String
  getEncodingsFromContent : String → List String

/-- Python membership-then-index on a dict with a possibly absent key:
response.headers.get with a None result is never a key of the
string-keyed dict, so it looks nothing up. -/
def headerLookup (m : List (String × String)) (k : Option String) : Option String :=
  match k with
  | none => none
  | some s => m.lookup s

/-- Test whether the needle occurs at the head of the haystack. -/
def charsStartWith : List Char → List Char → Bool
  | _, [] => true
  | [], _ :: _ => false
  | c :: cs, d :: ds => c = d && charsStartWith cs ds

/-- Test whether the needle occurs anywhere in the haystack. -/
def charsContain (hay needle : List Char) : Bool :=
  match hay with
  | [] => needle.isEmpty
  | _ :: tl => charsStartWith hay needle || charsContain tl needle

/-- Python substring test: the expression charset in ct. -/
def containsCharset (ct : String) : Bool :=
  charsContain ct.toList "charset".toList

/-- Python expression html or two quotes: an empty str or empty bytes is
falsy and is replaced by the empty string. -/
def pyOr (v : PyVal) : PyVal :=
  match v with
  | PyVal.pstr s => if s.isEmpty then PyVal.pstr "" else PyVal.pstr s
  | PyVal.pbytes bs => if bs.isEmpty then PyVal.pstr "" else PyVal.pbytes bs

/-- Exception that the normalizer itself can raise: the TypeError from
evaluating charset in None when the content-type header is absent. -/
inductive PyErr where
  | typeError (msg : String)
deriving Repr, DecidableEq

/-- Embedding of _get_html_from_response of network.py. -/
def get_html_from_response (tr : Transport) (response : Response)
    (config : Configuration) : Except PyErr PyVal :=
  match headerLookup config.ignored_content_types_defaults response.contentTypeHeader with
  | some mapped => Except.ok (PyVal.pstr mapped)
  | none =>
    if response.encoding ≠ some FAIL_ENCODING then
      Except.ok (pyOr (PyVal.pstr (tr.decode response.encoding response.content)))
    else
      match response.contentTypeHeader with
      | none => Except.error (PyErr.typeError "argument of type NoneType is not iterable")
      | some ct =>
        if containsCharset ct = false then
          match tr.getEncodingsFromContent (tr.decode response.encoding response.content) with
          | [] => Except.ok (pyOr (PyVal.pbytes response.content))
          | enc :: _ => Except.ok (pyOr (PyVal.pstr (tr.decode (some enc) response.content)))
        else
          Except.ok (pyOr (PyVal.pbytes response.content))

/-- Keyword arguments assembled by get_request_kwargs. The cookie jar is
built from the stripped records; we keep the stripped records themselves
as the observable content of the jar. -/
structure RequestKwargs where
  headers : List (String × String)
  cookies : List Cookie
  timeout : Nat
  allow_redirects : Bool
  proxies : List (String × String)
deriving Repr, DecidableEq

/-- Embedding of get_request_kwargs of network.py. The second component
is the cookie list as every alias of it observes it after the call: the
function deletes the FILTERED_ATTR keys from each record in place, so a
caller whose configuration shares these records sees them stripped. -/
def get_request_kwargs (timeout : Nat) (useragent : String)
    (proxies : List (String × String)) (headers : List (String × String))
    (cookies : List Cookie) : RequestKwargs × List Cookie :=
  let stripped := cookies.map stripCookie
  ({ headers := if headers.isEmpty then [("User-Agent", useragent)] else headers,
     cookies := stripped,
     timeout := timeout,
     allow_redirects := true,
     proxies := proxies }, stripped)

/-- Log events emitted through the logging collaborator. -/
inductive LogEvent where
  | info (msg : String)
  | error (msg : String)
  | critical (msg : String)
  | debug (msg : String)
deriving Repr, DecidableEq

/-- Outcome of one call to requests.get: a response, or a raised
requests.exceptions.RequestException (connection error, timeout, DNS). -/
inductive NetResult where
  | ok (r : Response)
  | err (msg : String)
deriving Repr, DecidableEq

/-- Filesystem collaborator: for a path, some loaded cookie list when
open plus json.load succeed, none when any exception is raised (missing
file, malformed JSON). -/
abbrev FS := String → Option (List Cookie)

/-- Network collaborator: outcome of requests.get per URL and assembled
keyword arguments. -/
abbrev World := String → RequestKwargs → NetResult

/-- Condition under which response.raise_for_status raises an HTTPError:
a 4XX or 5XX status code. -/
def raisesForStatus (status : Nat) : Bool :=
  decide (400 ≤ status ∧ status < 600)

/-- Exceptions observable from the single-fetch entry points: a
requests RequestException (which covers the HTTPError raised by
raise_for_status) or the TypeError escaping the normalizer. -/
inductive FetchErr where
  | requestException (msg : String)
  | typeError (msg : String)
deriving Repr, DecidableEq

/-- Lift of a normalizer outcome into the fetch-level exceptions. -/
def normToFetch : Except PyErr PyVal → Except FetchErr PyVal
  | Except.ok v => Except.ok v
  | Except.error (PyErr.typeError m) => Except.error (FetchErr.typeError m)

/-- Log line of the cookie-file failure path. -/
def cookieLoadLog (path : String) : LogEvent :=
  LogEvent.error ("Failed loading cookie file at: " ++ path)

/-- Cookie resolution as written in get_html_2XX_only: the try block
sits inside the guard on a non-empty cookies_file. -/
def resolveCookiesSingle (fs : FS) (cookies_file : String) (cookies : List Cookie) :
    List Cookie × List LogEvent :=
  if cookies_file ≠ "" then
    match fs cookies_file with
    | some loaded => (loaded, [LogEvent.info "Loading Cookie File"])
    | none => (cookies, [LogEvent.info "Loading Cookie File", cookieLoadLog cookies_file])
  else (cookies, [])

/-- Cookie resolution as written in MRequest.send: only the info log is
guarded by a non-empty cookies_file; the try block around open runs
unconditionally, so an empty path is also attempted (and fails back). -/
def resolveCookiesSend (fs : FS) (cookies_file : String) (cookies : List Cookie) :
    List Cookie × List LogEvent :=
  let lg := if cookies_file ≠ "" then [LogEvent.info "Loading Cookie File"] else []
  match fs cookies_file with
  | some loaded => (loaded, lg)
  | none => (cookies, lg ++ [cookieLoadLog cookies_file])

deriving instance DecidableEq for Except

/-- Observable outcome of one single-fetch call: the returned value or
raised exception, the emitted log, the configuration as its holder sees
it afterwards (cookie records are shared by reference and may have been
stripped in place), and the number of requests.get calls issued. -/
structure FetchOut where
  result : Except FetchErr PyVal
  log : List LogEvent
  configAfter : Configuration
  netCalls : Nat
deriving Repr, DecidableEq

/-- Returned value or raised exception of get_html_2XX_only as a
function of the resolved cookie list: with a pre-supplied response the
normalizer output is returned directly (no network call, no
raise_for_status); else the GET is issued with the assembled keyword
arguments, the response is normalized, and a 4XX or 5XX status raises
when http_success_only is set. -/
def fetch_result (world : World) (tr : Transport) (url : String)
    (config : Configuration) (response : Option Response) (cookies : List Cookie) :
    Except FetchErr PyVal :=
  match response with
  | some r => normToFetch (get_html_from_response tr r config)
  | none =>
    let kw := get_request_kwargs config.request_timeout config.browser_user_agent
        config.proxies config.headers cookies
    match world url kw.1 with
    | NetResult.err e => Except.error (FetchErr.requestException e)
    | NetResult.ok r =>
      match get_html_from_response tr r config with
      | Except.error (PyErr.typeError m) => Except.error (FetchErr.typeError m)
      | Except.ok html =>
        if config.http_success_only && raisesForStatus r.status then
          Except.error (FetchErr.requestException "HTTPError")
        else Except.ok html

/-- Embedding of get_html_2XX_only of network.py. Cookie resolution
runs first; the outcome is fetch_result over the resolved cookie list;
the network is touched only when no response was pre-supplied, and in
that case get_request_kwargs strips the cookie records in place, which
the holder of the configuration observes whenever the records in use
are the configured ones (no successful file load replaced them). -/
def get_html_2XX_only (fs : FS) (world : World) (tr : Transport) (url : String)
    (config : Configuration) (response : Option Response) : FetchOut :=
  let rc := resolveCookiesSingle fs config.cookies_file config.cookies
  match response with
  | some r =>
    { result := fetch_result world tr url config (some r) rc.1,
      log := rc.2, configAfter := config, netCalls := 0 }
  | none =>
    let kw := get_request_kwargs config.request_timeout config.browser_user_agent
        config.proxies config.headers rc.1
    let fromFile := config.cookies_file ≠ "" ∧ (fs config.cookies_file).isSome
    { result := fetch_result world tr url config none rc.1,
      log := rc.2,
      configAfter := if fromFile then config else { config with cookies := kw.2 },
      netCalls := 1 }

/-- Exception handler of get_html: a RequestException outcome of the
inner call becomes the empty string with a debug log line; every other
outcome (a value, or the TypeError) passes through. -/
def get_html_wrap (url : String) (inner : FetchOut) : FetchOut :=
  match inner.result with
  | Except.error (FetchErr.requestException e) =>
    { inner with
      result := Except.ok (PyVal.pstr ""),
      log := inner.log ++ [LogEvent.debug ("get_html error " ++ e ++ " on URL: " ++ url)] }
  | _ => inner

/-- Embedding of get_html of network.py: the wrapper that catches
requests.exceptions.RequestException from the inner call and returns
the empty string; any other exception (the TypeError) passes through. -/
def get_html (fs : FS) (world : World) (tr : Transport) (url : String)
    (config : Configuration) (response : Option Response) : FetchOut :=
  get_html_wrap url (get_html_2XX_only fs world tr url config response)

/-- Fetch Task of the batch path: the MRequest object of network.py. -/
structure MRequest where
  url : String
  config : Configuration
  useragent : String
  timeout : Nat
  proxies : List (String × String)
  headers : List (String × String)
  cookies : List Cookie
  cookies_file : String
  resp : Option Response
deriving Repr, DecidableEq

/-- Constructor MRequest of network.py with a non-None configuration
(the batch path always passes one). -/
def MRequest.init (url : String) (config : Configuration) : MRequest :=
  { url := url, config := config,
    useragent := config.browser_user_agent,
    timeout := config.request_timeout,
    proxies := config.proxies,
    headers := config.headers,
    cookies := config.cookies,
    cookies_file := config.cookies_file,
    resp := none }

/-- Keyword arguments that MRequest.send passes to requests.get. -/
def MRequest.sendKwargs (fs : FS) (m : MRequest) : RequestKwargs :=
  (get_request_kwargs m.timeout m.useragent m.proxies m.headers
    (resolveCookiesSend fs m.cookies_file m.cookies).1).1

/-- Embedding of MRequest.send of network.py. self.resp is assigned the
response as soon as requests.get returns, before raise_for_status runs;
on a RequestException (from the GET itself or from raise_for_status)
the method logs at critical severity and returns normally. When the
cookie records in use are the shared configured ones, the in-place
stripping inside get_request_kwargs is visible through the cookies
field. -/
def MRequest.send (fs : FS) (world : World) (m : MRequest) : MRequest × List LogEvent :=
  let lg := (resolveCookiesSend fs m.cookies_file m.cookies).2
  let stripped := (get_request_kwargs m.timeout m.useragent m.proxies m.headers
      (resolveCookiesSend fs m.cookies_file m.cookies).1).2
  let m1 := if (fs m.cookies_file).isSome then m else { m with cookies := stripped }
  match world m.url (m.sendKwargs fs) with
  | NetResult.err e =>
    (m1, lg ++ [LogEvent.critical ("[REQUEST FAILED] " ++ e)])
  | NetResult.ok r =>
    if m.config.http_success_only && raisesForStatus r.status then
      ({ m1 with resp := some r }, lg ++ [LogEvent.critical "[REQUEST FAILED] HTTPError"])
    else
      ({ m1 with resp := some r }, lg)

/-- Modelled from the spec: the ThreadPool of mthreading.py is not under
src/ (network.py only imports and calls it). Section 4.4 of the spec:
the pool runs every submitted callable to completion in some order the
caller does not control, callables never propagate exceptions, and no
result is returned by the pool itself. We model one execution order as a
list of task indices: each step runs the send of the task at that index
and stores the updated task back in its own slot. The wait-timeout path
(which only abandons the wait, spec 4.4) is not modelled. -/
def runStep (fs : FS) (world : World) (tasks : List MRequest) (i : Nat) :
    List MRequest × List LogEvent :=
  match tasks[i]? with
  | none => (tasks, [])
  | some t =>
    (tasks.set i (MRequest.send fs world t).1, (MRequest.send fs world t).2)

/-- Execution of a whole order of task indices, one runStep each. -/
def runTasks (fs : FS) (world : World) : List MRequest → List Nat →
    List MRequest × List LogEvent
  | tasks, [] => (tasks, [])
  | tasks, i :: rest =>
    let st := runStep fs world tasks i
    let out := runTasks fs world st.1 rest
    (out.1, st.2 ++ out.2)

/-- Embedding of multithread_request of network.py, with the completion
order of the worker pool made an explicit parameter: one MRequest is
built per URL in input order, every send runs through the pool, and the
task list itself is returned. -/
def multithread_request_sched (fs : FS) (world : World) (urls : List String)
    (config : Configuration) (order : List Nat) : List MRequest × List LogEvent :=
  let m_requests := urls.map (fun u => MRequest.init u config)
  runTasks fs world m_requests order

/-- Embedding of multithread_request of network.py at the FIFO dispatch
order (each task runs exactly once, in submission order). -/
def multithread_request (fs : FS) (world : World) (urls : List String)
    (config : Configuration) : List MRequest × List LogEvent :=
  multithread_request_sched fs world urls config (List.range urls.length)

/-! Concrete fixtures used by witnesses and counterexamples. -/

/-- Baseline configuration fixture. -/
def cfg0 : Configuration :=
  { browser_user_agent := "ua", request_timeout := 7, proxies := [], headers := [],
    cookies := [], cookies_file := "", http_success_only := false,
    ignored_content_types_defaults := [], number_threads := 2, thread_timeout_seconds := 9 }

/-- Transport fixture: decoding tags the text with the encoding used and
the byte count, and the embedded-charset scan reports shift_jis exactly
for the sentinel-decoded two-byte body. -/
def trFix : Transport :=
  { decode := fun enc bs =>
      (match enc with
       | some e => e
       | none => "apparent") ++ ":" ++ toString bs.length,
    getEncodingsFromContent := fun s =>
      if s = "ISO-8859-1:2" then ["shift_jis"] else [] }

/-- Filesystem fixture on which every open fails. -/
def fsNone : FS := fun _ => none

/-- Response fixture: ordinary 200 response with a detected encoding. -/
def respOk : Response :=
  { contentTypeHeader := some "text/html", encoding := some "utf-8",
    status := 200, content := [72] }

/-- Response fixture: 404 response with a detected encoding. -/
def resp404 : Response :=
  { contentTypeHeader := some "text/html", encoding := some "utf-8",
    status := 404, content := [72] }

/-- World fixture: every URL yields the 200 response. -/
def worldOk : World := fun _ _ => NetResult.ok respOk

/-- World fixture: every URL yields the 404 response. -/
def world404 : World := fun _ _ => NetResult.ok resp404

/-- World fixture: every connection is refused. -/
def worldRefused : World := fun _ _ => NetResult.err "connection refused"

/-- Response fixture: no content-type header at all, sentinel encoding. -/
def respNoCT : Response :=
  { contentTypeHeader := none, encoding := some "ISO-8859-1",
    status := 200, content := [65] }

/-- Response fixture: sentinel encoding with an explicit charset
parameter in the content-type header. -/
def respCharsetHdr : Response :=
  { contentTypeHeader := some "text/html; charset=ISO-8859-1",
    encoding := some "ISO-8859-1", status := 200, content := [72, 73] }

/-- Response fixture: sentinel encoding, content-type header without a
charset parameter, body whose scan declares shift_jis. -/
def respNoCharset : Response :=
  { contentTypeHeader := some "text/html", encoding := some "ISO-8859-1",
    status := 200, content := [72, 73] }

/-- Cookie record fixture carrying one of the stripped attributes. -/
def cookieSess : Cookie := [("name", "n"), ("value", "v"), ("session", "x")]

/-- Configuration fixture whose literal cookie list holds cookieSess. -/
def cfgMut : Configuration := { cfg0 with cookies := [cookieSess] }

/-- Configuration fixture mapping the pdf content type to literal text. -/
def cfgPdf : Configuration :=
  { cfg0 with ignored_content_types_defaults := [("application/pdf", "[PDF content]")] }

/-- Response fixture whose content type is the mapped pdf key. -/
def respPdf : Response :=
  { contentTypeHeader := some "application/pdf", encoding := some "ISO-8859-1",
    status := 200, content := [1, 2, 3] }

/-- Configuration fixture with success-only enforcement on. -/
def cfgStrict : Configuration := { cfg0 with http_success_only := true }

/-! Helper lemmas. -/

/-- Normalization of the final html or empty expression never yields an
empty bytes object: empty values collapse to the empty string. -/
theorem pyOr_ne_empty_bytes (v : PyVal) : pyOr v ≠ PyVal.pbytes [] := by
  cases v with
  | pstr s => by_cases h : s.isEmpty <;> simp [pyOr, h]
  | pbytes bs =>
    by_cases h : bs.isEmpty
    · simp [pyOr, h]
    · simp only [pyOr, h, if_neg]
      simp only [Bool.false_eq_true, if_false]
      intro hh
      injection hh with hbs
      exact h (by simp [hbs])

/-! Claim theorems. -/

/-- C10: applying the cookie attribute-strip rule twice to any cookie
record yields the same record as applying it once. -/
theorem stripCookie_idempotent (c : Cookie) : stripCookie (stripCookie c) = stripCookie c := by
  simp [stripCookie, List.filter_filter]

/-- C8: whenever the content-type header of the response exactly matches
a key of the ignored-content-types mapping, the normalizer returns the
mapped literal text, whatever the body bytes and encoding are. -/
theorem ignored_content_type_short_circuit (tr : Transport) (r : Response)
    (config : Configuration) (ct lit : String)
    (h1 : r.contentTypeHeader = some ct)
    (h2 : config.ignored_content_types_defaults.lookup ct = some lit) :
    get_html_from_response tr r config = Except.ok (PyVal.pstr lit) := by
  simp [get_html_from_response, headerLookup, h1, h2]

/-- C8 witness: the pdf content type mapped to a literal short-circuits
past a sentinel-encoded binary body. -/
theorem ignored_content_type_short_circuit_witness :
    get_html_from_response trFix respPdf cfgPdf = Except.ok (PyVal.pstr "[PDF content]") :=
  ignored_content_type_short_circuit trFix respPdf cfgPdf "application/pdf" "[PDF content]"
    rfl rfl

/-- C9: a call with a pre-supplied response returns the lifted
normalizer output for it, issues no network request, leaves the
configuration untouched, and never consults the success-only policy or
the status of the response. -/
theorem presupplied_response_no_network (fs : FS) (world : World) (tr : Transport)
    (url : String) (config : Configuration) (r : Response) :
    get_html_2XX_only fs world tr url config (some r) =
      { result := normToFetch (get_html_from_response tr r config),
        log := (resolveCookiesSingle fs config.cookies_file config.cookies).2,
        configAfter := config, netCalls := 0 } := rfl

/-- C3 counterexample: on a response with no content-type header whose
encoding is the sentinel, the normalizer raises a TypeError instead of
returning text. -/
theorem normalizer_raises_without_content_type :
    get_html_from_response trFix respNoCT cfg0 =
      Except.error (PyErr.typeError "argument of type NoneType is not iterable") := by
  decide

/-- C3 (amended): whenever the response carries a content-type header,
or its detected encoding differs from the sentinel, the normalizer
returns a value without raising, and an empty value is normalized to
the empty string (it never returns empty bytes); the value may however
be raw bytes rather than decoded text, and for a sentinel-encoded
response carrying no content-type header it raises a TypeError. -/
theorem normalizer_total_with_header (tr : Transport) (r : Response)
    (config : Configuration)
    (h : r.contentTypeHeader ≠ none ∨ r.encoding ≠ some FAIL_ENCODING) :
    ∃ v, get_html_from_response tr r config = Except.ok v ∧ v ≠ PyVal.pbytes [] := by
  unfold get_html_from_response
  cases hdr : headerLookup config.ignored_content_types_defaults r.contentTypeHeader with
  | some mapped => exact ⟨PyVal.pstr mapped, rfl, by simp⟩
  | none =>
    by_cases he : r.encoding = some FAIL_ENCODING
    · rcases h with hct | hct
      · cases hc : r.contentTypeHeader with
        | none => exact absurd hc hct
        | some ct =>
          simp only [he, ne_eq, not_true_eq_false, if_false, hc]
          by_cases hcs : containsCharset ct = false
          · simp only [hcs, if_true]
            cases hg : tr.getEncodingsFromContent (tr.decode (some FAIL_ENCODING) r.content) with
            | nil => exact ⟨_, rfl, pyOr_ne_empty_bytes _⟩
            | cons e es => exact ⟨_, rfl, pyOr_ne_empty_bytes _⟩
          · simp only [hcs, if_false]
            exact ⟨_, rfl, pyOr_ne_empty_bytes _⟩
      · exact absurd he hct
    · simp only [ne_eq, he, not_false_eq_true, if_true]
      exact ⟨_, rfl, pyOr_ne_empty_bytes _⟩

/-- C3 witness: the header-carrying sentinel-encoded response with a
charset parameter yields a value, and that value is not empty bytes. -/
theorem normalizer_total_with_header_witness :
    ∃ v, get_html_from_response trFix respCharsetHdr cfg0 = Except.ok v ∧
      v ≠ PyVal.pbytes [] :=
  normalizer_total_with_header trFix respCharsetHdr cfg0 (Or.inl (by decide))

/-- C5 counterexample: for a sentinel-encoded response whose
content-type header itself contains a charset parameter, the normalizer
does not re-decode at all, even though the body scan would declare
shift_jis: it returns the raw bytes, not the re-decoded text the claim
requires. -/
theorem charset_header_no_redecode :
    get_html_from_response trFix respCharsetHdr cfg0 = Except.ok (PyVal.pbytes [72, 73]) ∧
    trFix.getEncodingsFromContent (trFix.decode (some FAIL_ENCODING) [72, 73]) =
      ["shift_jis"] ∧
    (Except.ok (PyVal.pbytes [72, 73]) : Except PyErr PyVal) ≠
      Except.ok (PyVal.pstr (trFix.decode (some "shift_jis") [72, 73])) := by
  decide

/-- C5 (amended): when the detected encoding equals the sentinel and the
content-type header does not contain a charset parameter, the normalizer
scans the body text decoded with the sentinel and, when a declared
encoding is found, re-decodes the raw bytes with the first one found,
not the sentinel; when the header does contain a charset parameter no
re-decode happens and the raw bytes are returned. -/
theorem encoding_fallback_body_scan (tr : Transport) (r : Response)
    (config : Configuration) (ct e : String) (es : List String)
    (h0 : headerLookup config.ignored_content_types_defaults r.contentTypeHeader = none)
    (h1 : r.encoding = some FAIL_ENCODING)
    (h2 : r.contentTypeHeader = some ct)
    (h3 : containsCharset ct = false)
    (h4 : tr.getEncodingsFromContent (tr.decode (some FAIL_ENCODING) r.content) = e :: es) :
    get_html_from_response tr r config =
      Except.ok (pyOr (PyVal.pstr (tr.decode (some e) r.content))) := by
  rw [h2] at h0
  simp [get_html_from_response, h0, h1, h2, h3, h4]

/-- C5 witness: the sentinel-encoded response without a charset
parameter in its header is re-decoded with the declared shift_jis. -/
theorem encoding_fallback_body_scan_witness :
    get_html_from_response trFix respNoCharset cfg0 =
      Except.ok (pyOr (PyVal.pstr (trFix.decode (some "shift_jis") respNoCharset.content))) :=
  encoding_fallback_body_scan trFix respNoCharset cfg0 "text/html" "shift_jis" []
    (by decide) (by decide) (by decide) (by decide) (by decide)

/-- C4: evaluation of the code at the failing input. A configuration
whose cookie list holds a record with the session attribute is mutated
by a plain fetch: get_request_kwargs deletes the attribute from the
shared record in place, so after the call the configuration no longer
holds the cookie list it started with. -/
theorem config_cookies_mutated_by_fetch :
    (get_html_2XX_only fsNone worldOk trFix "http://x" cfgMut none).configAfter.cookies =
      [[("name", "n"), ("value", "v")]] ∧
    cfgMut.cookies ≠ [[("name", "n"), ("value", "v")]] ∧
    (get_request_kwargs cfgMut.request_timeout cfgMut.browser_user_agent cfgMut.proxies
        cfgMut.headers cfgMut.cookies).2 ≠ cfgMut.cookies := by
  decide

/-- Sending a task never changes its url field. -/
theorem send_url (fs : FS) (world : World) (m : MRequest) :
    (MRequest.send fs world m).1.url = m.url := by
  unfold MRequest.send
  cases hw : world m.url (m.sendKwargs fs) with
  | err e => by_cases hf : (fs m.cookies_file).isSome <;> simp [hw, hf]
  | ok r =>
    by_cases hf : (fs m.cookies_file).isSome <;>
      by_cases hs : m.config.http_success_only && raisesForStatus r.status <;>
        simp [hw, hf, hs]

/-- Behavior of send on a transport failure: the result slot keeps its
previous value and a critical log line is emitted. -/
theorem send_err (fs : FS) (world : World) (m : MRequest) (emsg : String)
    (h : world m.url (m.sendKwargs fs) = NetResult.err emsg) :
    (MRequest.send fs world m).1.resp = m.resp ∧
    LogEvent.critical ("[REQUEST FAILED] " ++ emsg) ∈ (MRequest.send fs world m).2 := by
  unfold MRequest.send
  by_cases hf : (fs m.cookies_file).isSome <;> simp [h, hf]

/-- Behavior of send when requests.get returns: the result slot is set
to the response before raise_for_status can fail, and a status failure
under the success-only policy only adds a critical log line. -/
theorem send_ok (fs : FS) (world : World) (m : MRequest) (r : Response)
    (h : world m.url (m.sendKwargs fs) = NetResult.ok r) :
    (MRequest.send fs world m).1.resp = some r ∧
    ((m.config.http_success_only && raisesForStatus r.status) = true →
      LogEvent.critical "[REQUEST FAILED] HTTPError" ∈ (MRequest.send fs world m).2) := by
  unfold MRequest.send
  by_cases hf : (fs m.cookies_file).isSome <;>
    by_cases hs : m.config.http_success_only && raisesForStatus r.status <;>
      simp [h, hf, hs]

/-- Setting a slot to the value it already holds changes nothing. -/
theorem List.set_getElem_self_ext {α : Type} :
    ∀ (l : List α) (i : Nat) (a : α), l[i]? = some a → l.set i a = l := by
  intro l
  induction l with
  | nil => intro i a h; simp at h
  | cons x xs ih =>
    intro i a h
    cases i with
    | zero =>
      simp only [List.getElem?_cons_zero, Option.some.injEq] at h
      simp [h]
    | succ n =>
      simp only [List.getElem?_cons_succ] at h
      show x :: xs.set n a = x :: xs
      rw [ih n a h]

/-- One pool step preserves the url sequence of the task list. -/
theorem runStep_map_url (fs : FS) (world : World) (tasks : List MRequest) (i : Nat) :
    (runStep fs world tasks i).1.map MRequest.url = tasks.map MRequest.url := by
  unfold runStep
  cases h : tasks[i]? with
  | none => rfl
  | some t =>
    simp only [List.map_set, send_url]
    have hm : (tasks.map MRequest.url)[i]? = some t.url := by
      rw [List.getElem?_map, h]; rfl
    exact List.set_getElem_self_ext _ _ _ hm

/-- One pool step preserves the length of the task list. -/
theorem runStep_length (fs : FS) (world : World) (tasks : List MRequest) (i : Nat) :
    (runStep fs world tasks i).1.length = tasks.length := by
  unfold runStep
  cases h : tasks[i]? with
  | none => rfl
  | some t => simp

/-- One pool step leaves every other slot of the task list unchanged. -/
theorem runStep_getElem_ne (fs : FS) (world : World) (tasks : List MRequest)
    (i j : Nat) (hne : j ≠ i) :
    (runStep fs world tasks i).1[j]? = tasks[j]? := by
  unfold runStep
  cases h : tasks[i]? with
  | none => rfl
  | some t => simp [List.getElem?_set_ne (Ne.symm hne)]

/-- Running any order of steps preserves the url sequence. -/
theorem runTasks_map_url (fs : FS) (world : World) :
    ∀ (order : List Nat) (tasks : List MRequest),
      (runTasks fs world tasks order).1.map MRequest.url = tasks.map MRequest.url := by
  intro order
  induction order with
  | nil => intro tasks; rfl
  | cons i rest ih =>
    intro tasks
    show (runTasks fs world (runStep fs world tasks i).1 rest).1.map MRequest.url =
      tasks.map MRequest.url
    rw [ih, runStep_map_url]

/-- Running any order of steps preserves the length of the task list. -/
theorem runTasks_length (fs : FS) (world : World) :
    ∀ (order : List Nat) (tasks : List MRequest),
      (runTasks fs world tasks order).1.length = tasks.length := by
  intro order
  induction order with
  | nil => intro tasks; rfl
  | cons i rest ih =>
    intro tasks
    show (runTasks fs world (runStep fs world tasks i).1 rest).1.length = tasks.length
    rw [ih, runStep_length]

/-- A slot whose index is never scheduled is unchanged by the pool. -/
theorem runTasks_getElem_not_mem (fs : FS) (world : World) :
    ∀ (order : List Nat) (tasks : List MRequest) (i : Nat), i ∉ order →
      (runTasks fs world tasks order).1[i]? = tasks[i]? := by
  intro order
  induction order with
  | nil => intro tasks i _; rfl
  | cons j rest ih =>
    intro tasks i hi
    have hj : i ≠ j := fun h => hi (h ▸ List.mem_cons_self j rest)
    have hrest : i ∉ rest := fun h => hi (List.mem_cons_of_mem j h)
    show (runTasks fs world (runStep fs world tasks j).1 rest).1[i]? = tasks[i]?
    rw [ih _ i hrest, runStep_getElem_ne fs world tasks j i hj]

/-- A slot scheduled exactly once ends up holding the send of the task
it held, and every log line of that send appears in the pool log. -/
theorem runTasks_getElem_processed (fs : FS) (world : World) :
    ∀ (l1 l2 : List Nat) (tasks : List MRequest) (i : Nat) (t : MRequest),
      i ∉ l1 → i ∉ l2 → tasks[i]? = some t →
      (runTasks fs world tasks (l1 ++ i :: l2)).1[i]? =
        some (MRequest.send fs world t).1 ∧
      ∀ e ∈ (MRequest.send fs world t).2,
        e ∈ (runTasks fs world tasks (l1 ++ i :: l2)).2 := by
  intro l1
  induction l1 with
  | nil =>
    intro l2 tasks i t _ h2 ht
    have hlt : i < tasks.length := by
      rcases List.getElem?_eq_some.mp ht with ⟨h, _⟩
      exact h
    have hstep : runStep fs world tasks i =
        (tasks.set i (MRequest.send fs world t).1, (MRequest.send fs world t).2) := by
      unfold runStep; rw [ht]
    constructor
    · show (runTasks fs world (runStep fs world tasks i).1 l2).1[i]? = _
      rw [hstep, runTasks_getElem_not_mem fs world l2 _ i h2]
      simp [List.getElem?_set_self hlt]
    · intro e he
      show e ∈ (runStep fs world tasks i).2 ++ (runTasks fs world (runStep fs world tasks i).1 l2).2
      rw [hstep]
      exact List.mem_append_left _ he
  | cons j rest ih =>
    intro l2 tasks i t hl1 h2 ht
    have hj : i ≠ j := fun h => hl1 (h ▸ List.mem_cons_self j rest)
    have hrest : i ∉ rest := fun h => hl1 (List.mem_cons_of_mem j h)
    have ht2 : (runStep fs world tasks j).1[i]? = some t := by
      rw [runStep_getElem_ne fs world tasks j i hj]; exact ht
    rcases ih l2 (runStep fs world tasks j).1 i t hrest h2 ht2 with ⟨ha, hb⟩
    constructor
    · exact ha
    · intro e he
      show e ∈ (runStep fs world tasks j).2 ++
        (runTasks fs world (runStep fs world tasks j).1 (rest ++ i :: l2)).2
      exact List.mem_append_right _ (hb e he)

/-- C1: the batch orchestrator returns one task per input URL whose url
fields, read in order, equal the input URL sequence exactly, for every
execution order of the worker pool. -/
theorem multithread_request_order_preserved (fs : FS) (world : World)
    (urls : List String) (config : Configuration) (order : List Nat) :
    (multithread_request_sched fs world urls config order).1.map MRequest.url = urls ∧
    (multithread_request_sched fs world urls config order).1.length = urls.length ∧
    (multithread_request fs world urls config).1.map MRequest.url = urls ∧
    (multithread_request fs world urls config).1.length = urls.length := by
  have hmap : ∀ o, (multithread_request_sched fs world urls config o).1.map MRequest.url
      = urls := by
    intro o
    show (runTasks fs world (urls.map fun u => MRequest.init u config) o).1.map MRequest.url
      = urls
    rw [runTasks_map_url, List.map_map]
    have hcomp : (MRequest.url ∘ fun u => MRequest.init u config) = fun u => u := rfl
    rw [hcomp]
    simp
  have hlen : ∀ o, (multithread_request_sched fs world urls config o).1.length
      = urls.length := by
    intro o
    show (runTasks fs world (urls.map fun u => MRequest.init u config) o).1.length
      = urls.length
    rw [runTasks_length, List.length_map]
  exact ⟨hmap order, hlen order, hmap (List.range urls.length), hlen (List.range urls.length)⟩

/-- C2 counterexample: with success-only enabled, a 404 response leaves
the result slot of the task present, holding the 404 response, not
absent as the claim states. -/
theorem send_404_resp_present :
    cfgStrict.http_success_only = true ∧
    raisesForStatus resp404.status = true ∧
    (MRequest.send fsNone world404 (MRequest.init "http://x" cfgStrict)).1.resp =
      some resp404 ∧
    some resp404 ≠ (none : Option Response) := by
  decide

/-- C2 (amended): the batch returns one task per URL, each holding
exactly the outcome of its own send; a send that hits a transport
failure leaves the result slot as it was (absent, for a freshly built
task) and logs at critical severity; a send whose requests.get returns
sets the result slot to the response before any status check, so under
the success-only policy a 4XX or 5XX response is logged at critical
severity without any exception escaping, while the result slot stays
present. -/
theorem multithread_request_failure_isolation (fs : FS) (world : World)
    (urls : List String) (config : Configuration) (i : Nat) (hi : i < urls.length) :
    (multithread_request fs world urls config).1.length = urls.length ∧
    (multithread_request fs world urls config).1[i]? =
      some (MRequest.send fs world (MRequest.init urls[i] config)).1 ∧
    (∀ e ∈ (MRequest.send fs world (MRequest.init urls[i] config)).2,
      e ∈ (multithread_request fs world urls config).2) ∧
    (∀ (m : MRequest) (emsg : String),
      world m.url (m.sendKwargs fs) = NetResult.err emsg →
      (MRequest.send fs world m).1.resp = m.resp ∧
      LogEvent.critical ("[REQUEST FAILED] " ++ emsg) ∈ (MRequest.send fs world m).2) ∧
    (∀ (m : MRequest) (r : Response),
      world m.url (m.sendKwargs fs) = NetResult.ok r →
      (MRequest.send fs world m).1.resp = some r ∧
      ((m.config.http_success_only && raisesForStatus r.status) = true →
        LogEvent.critical "[REQUEST FAILED] HTTPError" ∈ (MRequest.send fs world m).2)) := by
  have hmem : i ∈ List.range urls.length := List.mem_range.mpr hi
  rcases List.append_of_mem hmem with ⟨l1, l2, hsplit⟩
  have hnd : (l1 ++ i :: l2).Nodup := hsplit ▸ List.nodup_range urls.length
  rcases List.nodup_append.mp hnd with ⟨hnd1, hnd2, hdisj⟩
  have h1 : i ∉ l1 := fun hm => hdisj hm (List.mem_cons_self i l2)
  have h2 : i ∉ l2 := (List.nodup_cons.mp hnd2).1
  have ht : ((urls.map fun u => MRequest.init u config))[i]? =
      some (MRequest.init urls[i] config) := by
    rw [List.getElem?_map, List.getElem?_eq_getElem hi]; rfl
  have hproc := runTasks_getElem_processed fs world l1 l2
    (urls.map fun u => MRequest.init u config) i (MRequest.init urls[i] config) h1 h2 ht
  have heq : multithread_request fs world urls config =
      runTasks fs world (urls.map fun u => MRequest.init u config) (l1 ++ i :: l2) := by
    unfold multithread_request multithread_request_sched
    rw [hsplit]
  refine ⟨?_, ?_, ?_, ?_, ?_⟩
  · rw [heq, runTasks_length, List.length_map]
  · rw [heq]; exact hproc.1
  · intro e he; rw [heq]; exact hproc.2 e he
  · intro m emsg h; exact send_err fs world m emsg h
  · intro m r h; exact send_ok fs world m r h

/-- C2 witness: in a two-URL batch over a world where the first URL
fails at transport level and the second returns the 200 response, the
returned tasks hold an absent and a present result respectively, and
the critical log line of the failure is in the batch log. -/
theorem multithread_request_failure_isolation_witness :
    ((multithread_request fsNone
        (fun u _ => if u = "a" then NetResult.err "refused" else NetResult.ok respOk)
        ["a", "b"] cfgStrict).1.length = 2) ∧
    ((multithread_request fsNone
        (fun u _ => if u = "a" then NetResult.err "refused" else NetResult.ok respOk)
        ["a", "b"] cfgStrict).1[0]? =
      some (MRequest.send fsNone
        (fun u _ => if u = "a" then NetResult.err "refused" else NetResult.ok respOk)
        (MRequest.init "a" cfgStrict)).1) := by
  have h := multithread_request_failure_isolation fsNone
    (fun u _ => if u = "a" then NetResult.err "refused" else NetResult.ok respOk)
    ["a", "b"] cfgStrict 0 (by decide)
  exact ⟨h.1, h.2.1⟩

/-- C6: every RequestException raised by the inner entry point,
including a refused connection, a timeout and the HTTPError of the
success-only policy, is converted by get_html into the empty string. -/
theorem get_html_swallows_request_exception (fs : FS) (world : World) (tr : Transport)
    (url : String) (config : Configuration) (response : Option Response) (emsg : String)
    (h : (get_html_2XX_only fs world tr url config response).result =
      Except.error (FetchErr.requestException emsg)) :
    (get_html fs world tr url config response).result = Except.ok (PyVal.pstr "") := by
  unfold get_html get_html_wrap
  rw [h]

/-- C7: with a non-empty cookie-file path whose load fails, both entry
points attempt the load (logging the attempt at info severity), log the
failure, fall back to the configured cookie list, and let no load
failure escape: the single-fetch call returns exactly what the same
call with no cookie file configured returns, and the batch task sends
its request with the keyword arguments built from the configured cookie
list. -/
theorem cookie_file_failure_fallback (fs : FS) (world : World) (tr : Transport)
    (url : String) (config : Configuration) (response : Option Response) (m : MRequest)
    (hcf : config.cookies_file ≠ "")
    (hload : fs config.cookies_file = none)
    (hm1 : m.cookies_file = config.cookies_file)
    (hm2 : m.cookies = config.cookies) :
    (get_html_2XX_only fs world tr url config response).result =
      fetch_result world tr url config response config.cookies ∧
    LogEvent.info "Loading Cookie File" ∈
      (get_html_2XX_only fs world tr url config response).log ∧
    cookieLoadLog config.cookies_file ∈
      (get_html_2XX_only fs world tr url config response).log ∧
    m.sendKwargs fs =
      (get_request_kwargs m.timeout m.useragent m.proxies m.headers config.cookies).1 ∧
    LogEvent.info "Loading Cookie File" ∈ (MRequest.send fs world m).2 ∧
    cookieLoadLog config.cookies_file ∈ (MRequest.send fs world m).2 := by
  have hrc : resolveCookiesSingle fs config.cookies_file config.cookies =
      (config.cookies,
        [LogEvent.info "Loading Cookie File", cookieLoadLog config.cookies_file]) := by
    simp [resolveCookiesSingle, hcf, hload]
  have hrs : resolveCookiesSend fs m.cookies_file m.cookies =
      (config.cookies,
        [LogEvent.info "Loading Cookie File", cookieLoadLog config.cookies_file]) := by
    rw [hm1, hm2]
    simp [resolveCookiesSend, hcf, hload]
  have hkw : m.sendKwargs fs =
      (get_request_kwargs m.timeout m.useragent m.proxies m.headers config.cookies).1 := by
    unfold MRequest.sendKwargs
    rw [hrs]
  refine ⟨?_, ?_, ?_, hkw, ?_, ?_⟩
  · simp only [get_html_2XX_only, hrc]
    cases response <;> rfl
  · simp only [get_html_2XX_only, hrc]
    cases response <;> simp
  · simp only [get_html_2XX_only, hrc]
    cases response <;> simp
  · simp only [MRequest.send, hrs]
    cases hw : world m.url (MRequest.sendKwargs fs m) with
    | err e => simp
    | ok r =>
      simp only [hw]
      by_cases hs : (m.config.http_success_only && raisesForStatus r.status) = true <;>
        simp [hs]
  · simp only [MRequest.send, hrs]
    cases hw : world m.url (MRequest.sendKwargs fs m) with
    | err e => simp
    | ok r =>
      simp only [hw]
      by_cases hs : (m.config.http_success_only && raisesForStatus r.status) = true <;>
        simp [hs]

/-- Configuration fixture naming a cookie file that cannot be loaded. -/
def cfgFile : Configuration :=
  { cfg0 with cookies_file := "cookies.json", cookies := [[("name", "n"), ("value", "v")]] }

/-- C7 witness: with a missing cookie file, the single-fetch call
behaves like the call without a cookie file, both failure logs are
emitted on both paths, and the batch task uses the configured cookies. -/
theorem cookie_file_failure_fallback_witness :
    (get_html_2XX_only fsNone worldOk trFix "http://x" cfgFile none).result =
      fetch_result worldOk trFix "http://x" cfgFile none cfgFile.cookies ∧
    LogEvent.info "Loading Cookie File" ∈
      (get_html_2XX_only fsNone worldOk trFix "http://x" cfgFile none).log ∧
    cookieLoadLog cfgFile.cookies_file ∈
      (get_html_2XX_only fsNone worldOk trFix "http://x" cfgFile none).log ∧
    (MRequest.init "http://x" cfgFile).sendKwargs fsNone =
      (get_request_kwargs (MRequest.init "http://x" cfgFile).timeout
        (MRequest.init "http://x" cfgFile).useragent
        (MRequest.init "http://x" cfgFile).proxies
        (MRequest.init "http://x" cfgFile).headers cfgFile.cookies).1 ∧
    LogEvent.info "Loading Cookie File" ∈
      (MRequest.send fsNone worldOk (MRequest.init "http://x" cfgFile)).2 ∧
    cookieLoadLog cfgFile.cookies_file ∈
      (MRequest.send fsNone worldOk (MRequest.init "http://x" cfgFile)).2 :=
  cookie_file_failure_fallback fsNone worldOk trFix "http://x" cfgFile none
    (MRequest.init "http://x" cfgFile) (by decide) rfl rfl rfl

/-- C6 witness: against a URL whose connection is refused, the inner
entry point raises a RequestException and get_html returns the empty
string. -/
theorem get_html_swallows_request_exception_witness :
    ((get_html_2XX_only fsNone worldRefused trFix "http://refused" cfg0 none).result =
      Except.error (FetchErr.requestException "connection refused")) ∧
    (get_html fsNone worldRefused trFix "http://refused" cfg0 none).result =
      Except.ok (PyVal.pstr "") :=
  ⟨by decide,
   get_html_swallows_request_exception fsNone worldRefused trFix "http://refused" cfg0 none
     "connection refused" (by decide)⟩
